import Mathlib

/-!
Shallow embedding of the two Cloudflare Pages functions of the FREET
repository.

The repository holds two variants of one POST handler named onRequest:
* `src/functions/api/chat.js` — the bidirectional variant (modes `toLeet`
  and `fromLeet`), embedded below as `Freet.onRequest`;
* `src/unnamed/part_000` — the single-direction (leet to English)
  variant, embedded below as `Freet.onRequestV1`.

Modelling conventions:
* Request-body fields (`text`, `mode`) and the configuration secret are
  modelled as `Option String`; a JavaScript string field is truthy
  exactly when it is present and non-empty (`strTruthy`).
* The calls `context.request.json()` and `apiResponse.json()` are
  fallible and are modelled as `Except String _` (the error case carries
  the thrown message, which the outer catch turns into a 500 body).
* The outcome of the upstream fetch is a parameter of the handler:
  either a network error (rejected promise) or an HTTP response with its
  ok flag, numeric status, status text and JSON body.
* The upstream JSON body is one record with the two optional shapes the
  code reads: `error.message` (on failure) and
  `candidates[0].content.parts[0].text` (on success).
* The handler result records the HTTP response it returns together with
  the list of upstream calls it issued, so that never contacting the
  upstream is the statement `upstreamCalls = []`.
* The JavaScript optional chaining in the single-direction variant,
  `responseData.candidates[0]?.content?.parts[0]?.text`, throws a
  TypeError when `candidates` is absent, or when `content` is present
  but `parts` is absent, because there `[0]` is applied to an undefined
  value outside a `?.` guard; this is modelled by `extractTranslationV1`
  returning an error with the modelled TypeError message.
* JavaScript trim is modelled by `jsTrim`, dropping leading and trailing
  whitespace characters.
-/

namespace Freet

/-- One part of the content of a Gemini candidate: `\x7b text?: string \x7d`. -/
structure GeminiPart where
  text : Option String
  deriving DecidableEq, Repr

/-- Content of a candidate: an optional list of parts. -/
structure GeminiContent where
  parts : Option (List GeminiPart)
  deriving DecidableEq, Repr

/-- One candidate: an optional content object. -/
structure GeminiCandidate where
  content : Option GeminiContent
  deriving DecidableEq, Repr

/-- The error object of an upstream failure body: an optional message. -/
structure GeminiError where
  message : Option String
  deriving DecidableEq, Repr

/-- The upstream JSON body, with the two optional shapes the handlers
read: `error.message` on failure and `candidates` on success. -/
structure UpstreamJson where
  error : Option GeminiError
  candidates : Option (List GeminiCandidate)
  deriving DecidableEq, Repr

/-- Outcome of the fetch to the Gemini endpoint: a rejected promise
(network failure) or an HTTP response whose JSON body parse may itself
fail (the error case carries the parse-error message). -/
inductive FetchOutcome where
  | networkError (msg : String)
  | response (ok : Bool) (status : Nat) (statusText : String)
      (body : Except String UpstreamJson)
  deriving Repr

/-- Body of the HTTP response of the handler: plain text (the 405 path)
or one of the two JSON shapes, a translation object or an error object. -/
inductive RespBody where
  | plainText (s : String)
  | jsonTranslation (t : String)
  | jsonError (e : String)
  deriving DecidableEq, Repr

/-- The HTTP response of the handler. -/
structure HttpResponse where
  status : Nat
  body : RespBody
  deriving DecidableEq, Repr

/-- Parsed request body: optional `text` and `mode` string fields (the
single-direction variant ignores `mode`). -/
structure ReqBody where
  text : Option String
  mode : Option String
  deriving DecidableEq, Repr

/-- Handler input: HTTP method, the GEMINI_API_KEY environment value,
and the outcome of parsing the request body as JSON. -/
structure Ctx where
  method : String
  envKey : Option String
  reqJson : Except String ReqBody
  deriving Repr

/-- An upstream call the handler issued: endpoint URL and the prompt
text sent as the sole content part. -/
structure GeminiCall where
  url : String
  prompt : String
  deriving DecidableEq, Repr

/-- Handler output: the HTTP response together with the upstream calls
issued during the invocation. -/
structure HandlerResult where
  response : HttpResponse
  upstreamCalls : List GeminiCall
  deriving DecidableEq, Repr

/-- JavaScript truthiness of an optional string field: present and
non-empty. -/
def strTruthy : Option String → Bool
  | none => false
  | some s => s != ""

/-- The fixed Gemini endpoint with the API key in the query string. -/
def geminiApiUrl (key : String) : String :=
  "https://generativelanguage.googleapis.com/v1beta/models/gemini-2.5-flash:generateContent?key=" ++ key

/-- Text of the toLeet template of the bidirectional variant before the
interpolated input (up to the opening quote). -/
def toLeetInstrBefore : String :=
  "あなたはインターネットスラングの専門家です。以下の「英語」を、文脈を読み取りつつ、可能な限り「Leet語（1337 speak）」に翻訳してください。単なる文字の置き換え（A=4など）だけでなく、スラング（you=j00など）も使ってください。翻訳結果のテキストだけを返してください。\n\n英語: "

/-- Text of the toLeet template of the bidirectional variant after the
interpolated input (from the closing quote on). -/
def toLeetInstrAfter : String := "\nLeet語翻訳:"

/-- The toLeet prompt of the bidirectional variant: the input text
verbatim, surrounded by double-quote characters, between the fixed
template parts. -/
def toLeetPrompt (inputText : String) : String :=
  toLeetInstrBefore ++ "\"" ++ inputText ++ "\"" ++ toLeetInstrAfter

/-- Text of the fromLeet template of the bidirectional variant before
the interpolated input. -/
def fromLeetInstrBefore : String :=
  "あなたはインターネットスラングの専門家です。以下の「Leet語（1337 speak）」を、文脈を推測して自然な「英語」に翻訳してください。翻訳結果のテキストだけを返してください。\n\nLeet語: "

/-- Text of the fromLeet template of the bidirectional variant after the
interpolated input. -/
def fromLeetInstrAfter : String := "\n英語翻訳:"

/-- The fromLeet prompt of the bidirectional variant. -/
def fromLeetPrompt (inputText : String) : String :=
  fromLeetInstrBefore ++ "\"" ++ inputText ++ "\"" ++ fromLeetInstrAfter

/-- The only prompt of the single-direction variant (its wording differs
slightly from the fromLeet template of the bidirectional variant). -/
def v1Prompt (leetText : String) : String :=
  "あなたはインターネットスラングの専門家です。以下の「Leet語（1337 speak）」を、文脈を推測して自然な英語に翻訳してください。翻訳結果だけを返してください。\n\nLeet語: \"" ++ leetText ++ "\"\n英語翻訳:"

/-- The literal fallback string used when the nested translation text is
missing or falsy. -/
def fallbackText : String := "Translation not found."

/-- JavaScript trim: drop leading and trailing whitespace characters. -/
def jsTrim (s : String) : String :=
  String.mk (((s.data.dropWhile Char.isWhitespace).reverse.dropWhile
    Char.isWhitespace).reverse)

/-- Defensive extraction of the bidirectional variant (chat.js lines
87 to 95): each level of `candidates[0].content.parts[0].text` is
checked for truthiness with a conjunction; any falsy link (including an
empty text string) keeps the fallback. Never throws. -/
def extractTranslation (j : UpstreamJson) : String :=
  match j.candidates with
  | none => fallbackText
  | some cs =>
    match cs with
    | [] => fallbackText
    | c :: _ =>
      match c.content with
      | none => fallbackText
      | some ct =>
        match ct.parts with
        | none => fallbackText
        | some ps =>
          match ps with
          | [] => fallbackText
          | p :: _ =>
            match p.text with
            | none => fallbackText
            | some t => if t = "" then fallbackText else t

/-- Modelled message of the TypeError thrown when an index access is
applied to an undefined value. -/
def typeErrorReading0 : String :=
  "Cannot read properties of undefined (reading 0)"

/-- Extraction of the single-direction variant (part_000 line 74):
`responseData.candidates[0]?.content?.parts[0]?.text` followed by the
fallback on a falsy result. The `[0]` accesses are not guarded by `?.`,
so an absent `candidates` field, or a present `content` with an absent
`parts` field, throws a TypeError (modelled as the error case); the `?.`
guards short-circuit to the fallback for a nullish `candidates[0]`,
`content` or `parts[0]`, and the disjunction with the fallback replaces
an absent or empty `text`. -/
def extractTranslationV1 (j : UpstreamJson) : Except String String :=
  match j.candidates with
  | none => .error typeErrorReading0
  | some cs =>
    match cs with
    | [] => .ok fallbackText
    | c :: _ =>
      match c.content with
      | none => .ok fallbackText
      | some ct =>
        match ct.parts with
        | none => .error typeErrorReading0
        | some ps =>
          match ps with
          | [] => .ok fallbackText
          | p :: _ =>
            match p.text with
            | none => .ok fallbackText
            | some t => .ok (if t = "" then fallbackText else t)

/-- Upstream-failure message of the bidirectional variant (chat.js line
81): `errorBody.error?.message` when truthy, the generic status-code
message otherwise. -/
def upstreamErrorMessage (status : Nat) (j : UpstreamJson) : String :=
  match j.error with
  | some e =>
    match e.message with
    | some m => if m = "" then ("Gemini API error: " ++ toString status) else m
    | none => "Gemini API error: " ++ toString status
  | none => "Gemini API error: " ++ toString status

/-- The bidirectional handler, onRequest of `src/functions/api/chat.js`:
method gate, key check, body validation, mode-based prompt selection,
one upstream call, error handling and defensive extraction as in the
source. -/
def onRequest (ctx : Ctx) (upstream : FetchOutcome) : HandlerResult :=
  if ctx.method != "POST" then
    ⟨⟨405, .plainText ("Method Not Allowed")⟩, []⟩
  else if !strTruthy ctx.envKey then
    ⟨⟨500, .jsonError ("GEMINI_API_KEY is not set in Cloudflare")⟩, []⟩
  else
    match ctx.reqJson with
    | .error e => ⟨⟨500, .jsonError e⟩, []⟩
    | .ok rb =>
      if !strTruthy rb.text || !strTruthy rb.mode then
        ⟨⟨400, .jsonError ("No text or mode provided")⟩, []⟩
      else
        let inputText := rb.text.getD ""
        let prompt :=
          if rb.mode = some ("toLeet") then toLeetPrompt inputText
          else fromLeetPrompt inputText
        let call : GeminiCall := ⟨geminiApiUrl (ctx.envKey.getD ""), prompt⟩
        match upstream with
        | .networkError m => ⟨⟨500, .jsonError m⟩, [call]⟩
        | .response ok status _statusText bodyRes =>
          if !ok then
            match bodyRes with
            | .error e => ⟨⟨500, .jsonError e⟩, [call]⟩
            | .ok j => ⟨⟨500, .jsonError (upstreamErrorMessage status j)⟩, [call]⟩
          else
            match bodyRes with
            | .error e => ⟨⟨500, .jsonError e⟩, [call]⟩
            | .ok j => ⟨⟨200, .jsonTranslation (jsTrim (extractTranslation j))⟩, [call]⟩

/-- The single-direction handler, onRequest of `src/unnamed/part_000`:
method gate, key check, text-only validation, fixed prompt, one upstream
call; a non-ok upstream status throws the generic message built from the
status and status text without reading the body. -/
def onRequestV1 (ctx : Ctx) (upstream : FetchOutcome) : HandlerResult :=
  if ctx.method != "POST" then
    ⟨⟨405, .plainText ("Method Not Allowed")⟩, []⟩
  else if !strTruthy ctx.envKey then
    ⟨⟨500, .jsonError ("GEMINI_API_KEY is not set")⟩, []⟩
  else
    match ctx.reqJson with
    | .error e => ⟨⟨500, .jsonError e⟩, []⟩
    | .ok rb =>
      if !strTruthy rb.text then
        ⟨⟨400, .jsonError ("No text provided")⟩, []⟩
      else
        let call : GeminiCall :=
          ⟨geminiApiUrl (ctx.envKey.getD ""), v1Prompt (rb.text.getD "")⟩
        match upstream with
        | .networkError m => ⟨⟨500, .jsonError m⟩, [call]⟩
        | .response ok status statusText bodyRes =>
          if !ok then
            ⟨⟨500, .jsonError ("Gemini API error: " ++ toString status ++ " " ++ statusText)⟩, [call]⟩
          else
            match bodyRes with
            | .error e => ⟨⟨500, .jsonError e⟩, [call]⟩
            | .ok j =>
              match extractTranslationV1 j with
              | .error e => ⟨⟨500, .jsonError e⟩, [call]⟩
              | .ok t => ⟨⟨200, .jsonTranslation (jsTrim t)⟩, [call]⟩

/-- The nested path `candidates[0].content.parts[0].text` when every
link above the text is present (the text itself may still be absent or
empty); `none` when any link, or the text field, is absent. -/
def chainText (j : UpstreamJson) : Option String :=
  match j.candidates with
  | none => none
  | some cs =>
    match cs with
    | [] => none
    | c :: _ =>
      match c.content with
      | none => none
      | some ct =>
        match ct.parts with
        | none => none
        | some ps =>
          match ps with
          | [] => none
          | p :: _ => p.text

/-- The levels of a broken `candidates[0].content.parts[0].text` chain
at which the unguarded index accesses of the single-direction variant
throw: the `candidates` field absent, or `content` present with the
`parts` field absent. -/
def v1ChainThrows (j : UpstreamJson) : Bool :=
  match j.candidates with
  | none => true
  | some cs =>
    match cs with
    | [] => false
    | c :: _ =>
      match c.content with
      | none => false
      | some ct =>
        match ct.parts with
        | none => true
        | some _ => false

/-- A truthy optional string is exactly a non-empty present string. -/
lemma strTruthy_of_ne (s : String) (h : s ≠ "") : strTruthy (some s) = true := by
  simp [strTruthy, h]

/-- Trimming the fallback string changes nothing. -/
lemma jsTrim_fallback : jsTrim fallbackText = fallbackText := by decide

/-- When any link of the nested path is absent, the defensive extraction
of the bidirectional variant yields the fallback string. -/
lemma extractTranslation_of_chain_none (j : UpstreamJson) (hj : chainText j = none) :
    extractTranslation j = fallbackText := by
  rcases j with ⟨e, cs⟩
  unfold chainText at hj
  unfold extractTranslation
  cases cs with
  | none => rfl
  | some l =>
    cases l with
    | nil => rfl
    | cons c rest =>
      cases hc : c.content with
      | none => simp [hc]
      | some ct =>
        simp only [hc] at hj ⊢
        cases hp : ct.parts with
        | none => simp [hp]
        | some ps =>
          simp only [hp] at hj ⊢
          cases ps with
          | nil => rfl
          | cons p ps2 =>
            simp only at hj
            simp [hj]

/-- When a link of the nested path is absent at a level guarded by
optional chaining, the extraction of the single-direction variant yields
the fallback string without throwing. -/
lemma extractTranslationV1_of_chain_none (j : UpstreamJson)
    (hj : chainText j = none) (hth : v1ChainThrows j = false) :
    extractTranslationV1 j = .ok fallbackText := by
  rcases j with ⟨e, cs⟩
  unfold chainText at hj
  unfold v1ChainThrows at hth
  unfold extractTranslationV1
  cases cs with
  | none => simp at hth
  | some l =>
    cases l with
    | nil => rfl
    | cons c rest =>
      cases hc : c.content with
      | none => simp [hc]
      | some ct =>
        simp only [hc] at hj hth ⊢
        cases hp : ct.parts with
        | none => simp [hp] at hth
        | some ps =>
          simp only [hp] at hj ⊢
          cases ps with
          | nil => rfl
          | cons p ps2 =>
            simp only at hj
            simp [hj]

/-- When the chain is broken at an unguarded level, the extraction of
the single-direction variant throws the modelled TypeError. -/
lemma extractTranslationV1_of_throws (j : UpstreamJson)
    (hth : v1ChainThrows j = true) :
    extractTranslationV1 j = .error typeErrorReading0 := by
  rcases j with ⟨e, cs⟩
  unfold v1ChainThrows at hth
  unfold extractTranslationV1
  cases cs with
  | none => rfl
  | some l =>
    cases l with
    | nil => simp at hth
    | cons c rest =>
      cases hc : c.content with
      | none => simp [hc] at hth
      | some ct =>
        simp only [hc] at hth ⊢
        cases hp : ct.parts with
        | none => simp [hp]
        | some ps => simp [hp] at hth

set_option maxRecDepth 20000 in
/-- The summed lengths of the fixed template parts of the two prompts
differ. -/
lemma instr_length_ne :
    toLeetInstrBefore.length + toLeetInstrAfter.length ≠
      fromLeetInstrBefore.length + fromLeetInstrAfter.length := by decide

/-- The two prompt templates are never equal on the same input: their
fixed parts have different total lengths. -/
lemma toLeetPrompt_ne_fromLeetPrompt (s : String) :
    toLeetPrompt s ≠ fromLeetPrompt s := by
  intro h
  have h' := congrArg String.length h
  simp only [toLeetPrompt, fromLeetPrompt, String.length_append] at h'
  have hne := instr_length_ne
  omega

/-- On a valid POST request, the bidirectional handler issues exactly
one upstream call, with the prompt selected by comparing the mode with
the toLeet literal. -/
lemma onRequest_calls (key t m : String) (hk : key ≠ "") (ht : t ≠ "")
    (hm : m ≠ "") (up : FetchOutcome) :
    (onRequest ⟨"POST", some key, .ok ⟨some t, some m⟩⟩ up).upstreamCalls
      = [⟨geminiApiUrl key,
          if m = "toLeet" then toLeetPrompt t else fromLeetPrompt t⟩] := by
  cases up with
  | networkError msg => simp [onRequest, strTruthy, hk, ht, hm]
  | response ok st stx body =>
    cases ok <;> cases body <;> simp [onRequest, strTruthy, hk, ht, hm]

/-- On a valid POST request, the status of the response of the
bidirectional handler is never 400, whatever the upstream outcome. -/
lemma onRequest_status_not_400 (key t m : String) (hk : key ≠ "") (ht : t ≠ "")
    (hm : m ≠ "") (up : FetchOutcome) :
    (onRequest ⟨"POST", some key, .ok ⟨some t, some m⟩⟩ up).response.status ≠ 400 := by
  cases up with
  | networkError msg => simp [onRequest, strTruthy, hk, ht, hm]
  | response ok st stx body =>
    cases ok <;> cases body <;> simp [onRequest, strTruthy, hk, ht, hm]

/-- Claim C1 (amended): for an upstream success response whose nested
path `candidates[0].content.parts[0].text` is broken, the bidirectional
variant always returns status 200 with the fallback translation; the
single-direction variant does so only when the break is at a level
guarded by optional chaining, while an absent `candidates` field, or a
present `content` with an absent `parts` field, throws a TypeError and
yields status 500 with an error body. -/
theorem broken_chain_fallback (key t m : String) (hk : key ≠ "") (ht : t ≠ "")
    (hm : m ≠ "") (st : Nat) (stx : String) :
    (∀ j : UpstreamJson, chainText j = none →
      (onRequest ⟨"POST", some key, .ok ⟨some t, some m⟩⟩
         (.response true st stx (.ok j))).response
        = ⟨200, .jsonTranslation ("Translation not found.")⟩) ∧
    (∀ j : UpstreamJson, chainText j = none → v1ChainThrows j = false →
      (onRequestV1 ⟨"POST", some key, .ok ⟨some t, none⟩⟩
         (.response true st stx (.ok j))).response
        = ⟨200, .jsonTranslation ("Translation not found.")⟩) ∧
    (∀ j : UpstreamJson, v1ChainThrows j = true →
      (onRequestV1 ⟨"POST", some key, .ok ⟨some t, none⟩⟩
         (.response true st stx (.ok j))).response
        = ⟨500, .jsonError typeErrorReading0⟩) := by
  refine ⟨fun j hj => ?_, fun j hj hth => ?_, fun j hth => ?_⟩
  · have hx := extractTranslation_of_chain_none j hj
    simp [onRequest, strTruthy, hk, ht, hm, hx, fallbackText]
    decide
  · have hx := extractTranslationV1_of_chain_none j hj hth
    simp [onRequestV1, strTruthy, hk, ht, hx, fallbackText]
    decide
  · have hx := extractTranslationV1_of_throws j hth
    simp [onRequestV1, strTruthy, hk, ht, hx]

/-- Claim C1 witness: concrete broken responses, one per conjunct. -/
theorem broken_chain_fallback_witness :
    (onRequest ⟨"POST", some ("k"), .ok ⟨some ("H3110"), some ("fromLeet")⟩⟩
       (.response true 200 ("OK") (.ok ⟨none, some []⟩))).response
      = ⟨200, .jsonTranslation ("Translation not found.")⟩ ∧
    (onRequestV1 ⟨"POST", some ("k"), .ok ⟨some ("H3110"), none⟩⟩
       (.response true 200 ("OK") (.ok ⟨none, some []⟩))).response
      = ⟨200, .jsonTranslation ("Translation not found.")⟩ ∧
    (onRequestV1 ⟨"POST", some ("k"), .ok ⟨some ("H3110"), none⟩⟩
       (.response true 200 ("OK") (.ok ⟨none, none⟩))).response
      = ⟨500, .jsonError typeErrorReading0⟩ := by
  have h := broken_chain_fallback ("k") ("H3110") ("fromLeet")
    (by decide) (by decide) (by decide) 200 ("OK")
  exact ⟨h.1 ⟨none, some []⟩ rfl, h.2.1 ⟨none, some []⟩ rfl rfl, h.2.2 ⟨none, none⟩ rfl⟩

/-- Claim C1 counterexample to the claim as stated: on an upstream
success body with the `candidates` field missing entirely, the
single-direction variant does not return status 200 with the fallback
translation (it returns a 500 TypeError response). -/
theorem missing_candidates_v1_500 :
    (onRequestV1 ⟨"POST", some ("k"), .ok ⟨some ("H3110"), none⟩⟩
       (.response true 200 ("OK") (.ok ⟨none, none⟩))).response
      ≠ ⟨200, .jsonTranslation ("Translation not found.")⟩ := by decide

/-- Claim C2 (amended): on a non-success upstream status, the
bidirectional variant returns 500 with the upstream `error.message` when
that field is extractable (present and non-empty), and with the generic
status-code message otherwise — whether the error object is absent, its
message field is absent, or the message is the empty string; the
single-direction variant never reads the error body and always returns
500 with the generic message built from the status and status text. -/
theorem upstream_error_messages (key t m : String) (hk : key ≠ "") (ht : t ≠ "")
    (hm : m ≠ "") (st : Nat) (stx : String) :
    (∀ msg : String, msg ≠ "" → ∀ cands : Option (List GeminiCandidate),
      (onRequest ⟨"POST", some key, .ok ⟨some t, some m⟩⟩
         (.response false st stx (.ok ⟨some ⟨some msg⟩, cands⟩))).response
        = ⟨500, .jsonError msg⟩) ∧
    (∀ j : UpstreamJson, strTruthy (j.error.bind GeminiError.message) = false →
      (onRequest ⟨"POST", some key, .ok ⟨some t, some m⟩⟩
         (.response false st stx (.ok j))).response
        = ⟨500, .jsonError ("Gemini API error: " ++ toString st)⟩) ∧
    (∀ body : Except String UpstreamJson,
      (onRequestV1 ⟨"POST", some key, .ok ⟨some t, none⟩⟩
         (.response false st stx body)).response
        = ⟨500, .jsonError ("Gemini API error: " ++ toString st ++ " " ++ stx)⟩) := by
  refine ⟨fun msg hmsg cands => ?_, fun j hj => ?_, fun body => ?_⟩
  · simp [onRequest, strTruthy, hk, ht, hm, upstreamErrorMessage, hmsg]
  · have hgen : upstreamErrorMessage st j = "Gemini API error: " ++ toString st := by
      rcases j with ⟨e, cands⟩
      cases e with
      | none => rfl
      | some er =>
        rcases er with ⟨msg⟩
        cases msg with
        | none => rfl
        | some mm =>
          simp [strTruthy, Option.bind] at hj
          simp [upstreamErrorMessage, hj]
    simp [onRequest, strTruthy, hk, ht, hm, hgen]
  · simp [onRequestV1, strTruthy, hk, ht]

/-- Claim C2 witness: at status 429, a quota-exceeded message is
surfaced by the bidirectional variant; an absent error object, an absent
message field and an empty message each give the generic message; the
single-direction variant gives its generic message even with the
quota-exceeded body. -/
theorem upstream_error_messages_witness :
    (onRequest ⟨"POST", some ("k"), .ok ⟨some ("H3110"), some ("fromLeet")⟩⟩
       (.response false 429 ("Too Many Requests")
         (.ok ⟨some ⟨some ("quota exceeded")⟩, none⟩))).response
      = ⟨500, .jsonError ("quota exceeded")⟩ ∧
    (onRequest ⟨"POST", some ("k"), .ok ⟨some ("H3110"), some ("fromLeet")⟩⟩
       (.response false 429 ("Too Many Requests") (.ok ⟨none, none⟩))).response
      = ⟨500, .jsonError ("Gemini API error: " ++ toString 429)⟩ ∧
    (onRequest ⟨"POST", some ("k"), .ok ⟨some ("H3110"), some ("fromLeet")⟩⟩
       (.response false 429 ("Too Many Requests") (.ok ⟨some ⟨none⟩, none⟩))).response
      = ⟨500, .jsonError ("Gemini API error: " ++ toString 429)⟩ ∧
    (onRequest ⟨"POST", some ("k"), .ok ⟨some ("H3110"), some ("fromLeet")⟩⟩
       (.response false 429 ("Too Many Requests") (.ok ⟨some ⟨some ("")⟩, none⟩))).response
      = ⟨500, .jsonError ("Gemini API error: " ++ toString 429)⟩ ∧
    (onRequestV1 ⟨"POST", some ("k"), .ok ⟨some ("H3110"), none⟩⟩
       (.response false 429 ("Too Many Requests")
         (.ok ⟨some ⟨some ("quota exceeded")⟩, none⟩))).response
      = ⟨500, .jsonError ("Gemini API error: " ++ toString 429 ++ " " ++ "Too Many Requests")⟩ := by
  have h := upstream_error_messages ("k") ("H3110") ("fromLeet")
    (by decide) (by decide) (by decide) 429 ("Too Many Requests")
  exact ⟨h.1 ("quota exceeded") (by decide) none, h.2.1 ⟨none, none⟩ rfl,
    h.2.1 ⟨some ⟨none⟩, none⟩ rfl, h.2.1 ⟨some ⟨some ("")⟩, none⟩ (by decide),
    h.2.2 (.ok ⟨some ⟨some ("quota exceeded")⟩, none⟩)⟩

/-- Claim C2 counterexample to the claim as stated: the single-direction
variant does not surface the present `error.message` of the upstream
error body; it returns the generic message instead. -/
theorem v1_ignores_error_body :
    (onRequestV1 ⟨"POST", some ("k"), .ok ⟨some ("H3110"), none⟩⟩
       (.response false 429 ("Too Many Requests")
         (.ok ⟨some ⟨some ("quota exceeded")⟩, none⟩))).response
      ≠ ⟨500, .jsonError ("quota exceeded")⟩ := by decide

/-- Claim C3: on an upstream success response whose nested
`candidates[0].content.parts[0].text` is a non-empty string, both
variants return status 200 with that string trimmed of leading and
trailing whitespace. -/
theorem success_trim (key t m s : String) (hk : key ≠ "") (ht : t ≠ "")
    (hm : m ≠ "") (hs : s ≠ "") (st : Nat) (stx : String)
    (err : Option GeminiError) (ps : List GeminiPart) (cs : List GeminiCandidate) :
    (onRequest ⟨"POST", some key, .ok ⟨some t, some m⟩⟩
       (.response true st stx
         (.ok ⟨err, some (⟨some ⟨some (⟨some s⟩ :: ps)⟩⟩ :: cs)⟩))).response
      = ⟨200, .jsonTranslation (jsTrim s)⟩ ∧
    (onRequestV1 ⟨"POST", some key, .ok ⟨some t, none⟩⟩
       (.response true st stx
         (.ok ⟨err, some (⟨some ⟨some (⟨some s⟩ :: ps)⟩⟩ :: cs)⟩))).response
      = ⟨200, .jsonTranslation (jsTrim s)⟩ := by
  constructor
  · simp [onRequest, strTruthy, hk, ht, hm, extractTranslation, hs]
  · simp [onRequestV1, strTruthy, hk, ht, extractTranslationV1, hs]

/-- Claim C3 witness: upstream text with surrounding whitespace comes
back trimmed. -/
theorem success_trim_witness :
    (onRequest ⟨"POST", some ("k"), .ok ⟨some ("H3110"), some ("fromLeet")⟩⟩
       (.response true 200 ("OK")
         (.ok ⟨none, some [⟨some ⟨some [⟨some ("  Hello  ")⟩]⟩⟩]⟩))).response
      = ⟨200, .jsonTranslation ("Hello")⟩ ∧
    (onRequestV1 ⟨"POST", some ("k"), .ok ⟨some ("H3110"), none⟩⟩
       (.response true 200 ("OK")
         (.ok ⟨none, some [⟨some ⟨some [⟨some ("  Hello  ")⟩]⟩⟩]⟩))).response
      = ⟨200, .jsonTranslation ("Hello")⟩ := by
  have h := success_trim ("k") ("H3110") ("fromLeet") ("  Hello  ")
    (by decide) (by decide) (by decide) (by decide) 200 ("OK") none [] []
  rw [show jsTrim ("  Hello  ") = ("Hello") from by decide] at h
  exact h

/-- Claim C4: in the bidirectional variant, mode toLeet selects the
English-to-leet template and mode fromLeet the leet-to-English template;
each embeds the user text verbatim between surrounding double-quote
characters, and the two templates are never interchanged (they differ on
every input). -/
theorem mode_templates (key t : String) (hk : key ≠ "") (ht : t ≠ "")
    (up : FetchOutcome) :
    (onRequest ⟨"POST", some key, .ok ⟨some t, some ("toLeet")⟩⟩ up).upstreamCalls
      = [⟨geminiApiUrl key, toLeetInstrBefore ++ "\"" ++ t ++ "\"" ++ toLeetInstrAfter⟩] ∧
    (onRequest ⟨"POST", some key, .ok ⟨some t, some ("fromLeet")⟩⟩ up).upstreamCalls
      = [⟨geminiApiUrl key, fromLeetInstrBefore ++ "\"" ++ t ++ "\"" ++ fromLeetInstrAfter⟩] ∧
    (∀ s : String, toLeetPrompt s ≠ fromLeetPrompt s) := by
  refine ⟨?_, ?_, toLeetPrompt_ne_fromLeetPrompt⟩
  · rw [onRequest_calls key t ("toLeet") hk ht (by decide) up]
    simp [toLeetPrompt]
  · rw [onRequest_calls key t ("fromLeet") hk ht (by decide) up]
    simp [fromLeetPrompt]

/-- Claim C4 witness: the two modes on a concrete input. -/
theorem mode_templates_witness :
    (onRequest ⟨"POST", some ("k"), .ok ⟨some ("Hello"), some ("toLeet")⟩⟩
       (.networkError ("down"))).upstreamCalls
      = [⟨geminiApiUrl ("k"),
          toLeetInstrBefore ++ "\"" ++ "Hello" ++ "\"" ++ toLeetInstrAfter⟩] ∧
    (onRequest ⟨"POST", some ("k"), .ok ⟨some ("Hello"), some ("fromLeet")⟩⟩
       (.networkError ("down"))).upstreamCalls
      = [⟨geminiApiUrl ("k"),
          fromLeetInstrBefore ++ "\"" ++ "Hello" ++ "\"" ++ fromLeetInstrAfter⟩] ∧
    toLeetPrompt ("Hello") ≠ fromLeetPrompt ("Hello") := by
  have h := mode_templates ("k") ("Hello") (by decide) (by decide) (.networkError ("down"))
  exact ⟨h.1, h.2.1, h.2.2 ("Hello")⟩

/-- Claim C5: a POST request whose body lacks text, or supplies it
empty, or (bidirectional variant) lacks mode, is answered with status
400 and an error body, and no upstream call is issued. -/
theorem missing_fields_400 (key : String) (hk : key ≠ "") (up : FetchOutcome) :
    (∀ rb : ReqBody, rb.text = none ∨ rb.text = some ("") ∨ rb.mode = none →
      onRequest ⟨"POST", some key, .ok rb⟩ up
        = ⟨⟨400, .jsonError ("No text or mode provided")⟩, []⟩) ∧
    (∀ rb : ReqBody, rb.text = none ∨ rb.text = some ("") →
      onRequestV1 ⟨"POST", some key, .ok rb⟩ up
        = ⟨⟨400, .jsonError ("No text provided")⟩, []⟩) := by
  constructor
  · intro rb h
    rcases h with h | h | h <;> simp [onRequest, strTruthy, hk, h]
  · intro rb h
    rcases h with h | h <;> simp [onRequestV1, strTruthy, hk, h]

/-- Claim C5 witness: missing text, empty text, and missing mode. -/
theorem missing_fields_400_witness :
    onRequest ⟨"POST", some ("k"), .ok ⟨none, some ("fromLeet")⟩⟩ (.networkError ("down"))
      = ⟨⟨400, .jsonError ("No text or mode provided")⟩, []⟩ ∧
    onRequest ⟨"POST", some ("k"), .ok ⟨some (""), some ("fromLeet")⟩⟩ (.networkError ("down"))
      = ⟨⟨400, .jsonError ("No text or mode provided")⟩, []⟩ ∧
    onRequest ⟨"POST", some ("k"), .ok ⟨some ("Hello"), none⟩⟩ (.networkError ("down"))
      = ⟨⟨400, .jsonError ("No text or mode provided")⟩, []⟩ ∧
    onRequestV1 ⟨"POST", some ("k"), .ok ⟨none, none⟩⟩ (.networkError ("down"))
      = ⟨⟨400, .jsonError ("No text provided")⟩, []⟩ := by
  have h := missing_fields_400 ("k") (by decide) (.networkError ("down"))
  exact ⟨h.1 ⟨none, some ("fromLeet")⟩ (Or.inl rfl),
    h.1 ⟨some (""), some ("fromLeet")⟩ (Or.inr (Or.inl rfl)),
    h.1 ⟨some ("Hello"), none⟩ (Or.inr (Or.inr rfl)),
    h.2 ⟨none, none⟩ (Or.inl rfl)⟩

/-- Claim C6: with the GEMINI_API_KEY configuration value absent, every
POST request yields status 500 with an error body and no upstream call,
whatever the request body parse outcome (the check precedes body
parsing). -/
theorem missing_key_500 (body : Except String ReqBody) (up : FetchOutcome) :
    onRequest ⟨"POST", none, body⟩ up
      = ⟨⟨500, .jsonError ("GEMINI_API_KEY is not set in Cloudflare")⟩, []⟩ ∧
    onRequestV1 ⟨"POST", none, body⟩ up
      = ⟨⟨500, .jsonError ("GEMINI_API_KEY is not set")⟩, []⟩ := by
  constructor <;> simp [onRequest, onRequestV1, strTruthy]

/-- Claim C7: a non-POST request is answered with status 405 and a plain
text body, whatever the configuration, body and upstream, and no
upstream call is issued. -/
theorem non_post_405 (ctx : Ctx) (up : FetchOutcome) (h : ctx.method ≠ "POST") :
    onRequest ctx up = ⟨⟨405, .plainText ("Method Not Allowed")⟩, []⟩ ∧
    onRequestV1 ctx up = ⟨⟨405, .plainText ("Method Not Allowed")⟩, []⟩ := by
  constructor <;> simp [onRequest, onRequestV1, h]

/-- Claim C7 witness: a GET request with a valid body and key. -/
theorem non_post_405_witness :
    onRequest ⟨"GET", some ("k"), .ok ⟨some ("H3110"), some ("fromLeet")⟩⟩
      (.networkError ("down"))
      = ⟨⟨405, .plainText ("Method Not Allowed")⟩, []⟩ ∧
    onRequestV1 ⟨"GET", some ("k"), .ok ⟨some ("H3110"), some ("fromLeet")⟩⟩
      (.networkError ("down"))
      = ⟨⟨405, .plainText ("Method Not Allowed")⟩, []⟩ :=
  non_post_405 ⟨"GET", some ("k"), .ok ⟨some ("H3110"), some ("fromLeet")⟩⟩
    (.networkError ("down")) (by decide)

/-- Claim C8: with the key configured, a POST body that is not valid
JSON is caught by the outer catch and answered with status 500 (not 400)
carrying the parse-error message, and no upstream call is issued. -/
theorem malformed_json_500 (key : String) (hk : key ≠ "") (e : String)
    (up : FetchOutcome) :
    onRequest ⟨"POST", some key, .error e⟩ up = ⟨⟨500, .jsonError e⟩, []⟩ ∧
    onRequestV1 ⟨"POST", some key, .error e⟩ up = ⟨⟨500, .jsonError e⟩, []⟩ := by
  constructor <;> simp [onRequest, onRequestV1, strTruthy, hk]

/-- Claim C8 witness: a concrete JSON parse failure. -/
theorem malformed_json_500_witness :
    onRequest ⟨"POST", some ("k"), .error ("Unexpected token")⟩ (.networkError ("down"))
      = ⟨⟨500, .jsonError ("Unexpected token")⟩, []⟩ ∧
    onRequestV1 ⟨"POST", some ("k"), .error ("Unexpected token")⟩ (.networkError ("down"))
      = ⟨⟨500, .jsonError ("Unexpected token")⟩, []⟩ :=
  malformed_json_500 ("k") (by decide) ("Unexpected token") (.networkError ("down"))

/-- Claim C9: in the bidirectional variant, any present non-empty mode
other than the exact string toLeet passes validation, selects the
fromLeet template, and proceeds to the upstream call (the response is
never a 400). -/
theorem other_modes_fromLeet (key t m : String) (hk : key ≠ "") (ht : t ≠ "")
    (hm : m ≠ "") (hmode : m ≠ "toLeet") (up : FetchOutcome) :
    (onRequest ⟨"POST", some key, .ok ⟨some t, some m⟩⟩ up).upstreamCalls
      = [⟨geminiApiUrl key, fromLeetPrompt t⟩] ∧
    (onRequest ⟨"POST", some key, .ok ⟨some t, some m⟩⟩ up).response.status ≠ 400 := by
  refine ⟨?_, onRequest_status_not_400 key t m hk ht hm up⟩
  rw [onRequest_calls key t m hk ht hm up]
  simp [hmode]

/-- Claim C9 witness: the mode FromLeet (wrong capitalisation for
toLeet) still reaches the upstream with the fromLeet template. -/
theorem other_modes_fromLeet_witness :
    (onRequest ⟨"POST", some ("k"), .ok ⟨some ("H3110"), some ("FromLeet")⟩⟩
       (.networkError ("down"))).upstreamCalls
      = [⟨geminiApiUrl ("k"), fromLeetPrompt ("H3110")⟩] ∧
    (onRequest ⟨"POST", some ("k"), .ok ⟨some ("H3110"), some ("FromLeet")⟩⟩
       (.networkError ("down"))).response.status ≠ 400 :=
  other_modes_fromLeet ("k") ("H3110") ("FromLeet")
    (by decide) (by decide) (by decide) (by decide) (.networkError ("down"))

/-- Claim C10: when the full nested path is present but the text is the
empty string, both variants treat it as falsy and return status 200 with
the fallback translation. -/
theorem empty_text_fallback (key t m : String) (hk : key ≠ "") (ht : t ≠ "")
    (hm : m ≠ "") (st : Nat) (stx : String) (err : Option GeminiError)
    (ps : List GeminiPart) (cs : List GeminiCandidate) :
    (onRequest ⟨"POST", some key, .ok ⟨some t, some m⟩⟩
       (.response true st stx
         (.ok ⟨err, some (⟨some ⟨some (⟨some ("")⟩ :: ps)⟩⟩ :: cs)⟩))).response
      = ⟨200, .jsonTranslation ("Translation not found.")⟩ ∧
    (onRequestV1 ⟨"POST", some key, .ok ⟨some t, none⟩⟩
       (.response true st stx
         (.ok ⟨err, some (⟨some ⟨some (⟨some ("")⟩ :: ps)⟩⟩ :: cs)⟩))).response
      = ⟨200, .jsonTranslation ("Translation not found.")⟩ := by
  constructor
  · simp [onRequest, strTruthy, hk, ht, hm, extractTranslation]
    decide
  · simp [onRequestV1, strTruthy, hk, ht, extractTranslationV1]
    decide

/-- Claim C10 witness: a concrete success body with an empty text. -/
theorem empty_text_fallback_witness :
    (onRequest ⟨"POST", some ("k"), .ok ⟨some ("H3110"), some ("fromLeet")⟩⟩
       (.response true 200 ("OK")
         (.ok ⟨none, some [⟨some ⟨some [⟨some ("")⟩]⟩⟩]⟩))).response
      = ⟨200, .jsonTranslation ("Translation not found.")⟩ ∧
    (onRequestV1 ⟨"POST", some ("k"), .ok ⟨some ("H3110"), none⟩⟩
       (.response true 200 ("OK")
         (.ok ⟨none, some [⟨some ⟨some [⟨some ("")⟩]⟩⟩]⟩))).response
      = ⟨200, .jsonTranslation ("Translation not found.")⟩ :=
  empty_text_fallback ("k") ("H3110") ("fromLeet")
    (by decide) (by decide) (by decide) 200 ("OK") none [] []

end Freet
